import Mathlib

/-!
Verification of the vrchat-heartio advertisement-intake pipeline and export
utility.

The embedding models `src/app-python/src/main.py` and
`src/graph/scripts/export.py` shallowly:

* Wall-clock timestamps (`time.time()`) are rationals `ℚ`.
* The `last_seen` dict is a `Ledger := String → Option ℚ`
  (`dict.get(addr, 0)` becomes `(ls addr).getD 0`).
* Bytes of a manufacturer-data value are `Fin 256`.
* `requests.get` is an oracle `String → Except String Nat`: either a
  status code or a raised `requests.RequestException` carrying a message.
  The `try/except RequestException` block of `send_to_osc` is the `match`
  on that oracle's outcome; observable behaviour (HTTP requests issued and
  console lines printed) is collected in a list of `Effect`s.
* The Bluetooth radio is an oracle `BtOutcome` describing how the test
  scanner start/stop of `check_bluetooth_availability` ends, and an
  `Except String Unit` describing how the receiving scanner's start ends.
* The sqlite query of the export script is modelled by its documented
  semantics: `WHERE datetime(created_at) >= datetime(?)` is a filter and
  `ORDER BY created_at ASC` a merge sort on the stored rows; `created_at`
  is represented directly as unix seconds (`strftime('%s', ·)` is then the
  identity).
-/

/-- A byte of a manufacturer-data value (Python `bytes` element, 0–255). -/
abbrev Byte := Fin 256

/-- Observable actions of the pipeline: an HTTP GET issued to a URL, or a
console line printed. -/
inductive Effect
  | httpGet (url : String)
  | log (line : String)
deriving DecidableEq, Repr

/-- The `last_seen` dictionary: source address to last-accepted timestamp. -/
abbrev Ledger := String → Option ℚ

/-- The fields of a bleak `device` that `handle_advertisement` reads:
`device.address` and `device.name` (which may be `None`). -/
structure Device where
  address : String
  name : Option String

/-- The URL built by `send_to_osc` (f-string on line 14 of main.py). -/
def heartUrl (bpm : Nat) : String := s!"http://127.0.0.1:2333/heart?bpm={bpm}"

/-- Console line for a successful forward (main.py line 19). -/
def successLine (bpm : Nat) : String :=
  s!"Successfully sent BPM {bpm} to HeartIO main program."

/-- Console line for a non-200 response (main.py lines 21-23). -/
def failLine (bpm status : Nat) : String :=
  s!"Failed to send BPM {bpm}. Server responded with status code {status}."

/-- Console line for a caught `RequestException` (main.py line 25). -/
def errorLine (bpm : Nat) (e : String) : String :=
  s!"Error sending BPM {bpm} to HeartIO: {e}"

/-- Console line for a decoded heart rate (main.py line 41). -/
def receivedLine (addr : String) (hr : Nat) : String :=
  s!"[{addr}] Received heart rate: {hr} bpm"

/-- Console line for a too-short manufacturer-data value (main.py line 44). -/
def tooShortLine (addr : String) (value : List Byte) : String :=
  s!"[{addr}] Manufacturer data too short: {value.map Fin.val}"

/-- Console line for an advertisement without manufacturer data
(main.py line 46). -/
def noDataLine (addr : String) : String :=
  s!"[{addr}] No manufacturer data in advertisement"

/-- `send_to_osc` (main.py lines 13-25).  Builds the URL, and when
`bpm > 0` performs the GET inside a `try` that catches
`requests.RequestException`; every outcome of the oracle is handled, so the
function is total (no exception escapes).  Returns the effects produced. -/
def send_to_osc (http : String → Except String Nat) (bpm : Nat) : List Effect :=
  let url := heartUrl bpm
  if bpm > 0 then
    match http url with
    | .ok status =>
      if status == 200 then
        [Effect.httpGet url, Effect.log (successLine bpm)]
      else
        [Effect.httpGet url, Effect.log (failLine bpm status)]
    | .error e => [Effect.httpGet url, Effect.log (errorLine bpm e)]
  else
    []

/-- The Arrival Filter's suppression test, exactly the condition of
main.py line 31: `now - last_seen.get(addr, 0) < 1`. -/
def arrivalSuppressed (now : ℚ) (last_seen : Ledger) (addr : String) : Bool :=
  decide (now - ((last_seen addr).getD 0) < 1)

/-- The dict assignment `last_seen[addr] = now` (main.py line 33). -/
def ledgerUpdate (last_seen : Ledger) (addr : String) (now : ℚ) : Ledger :=
  fun a => if a = addr then some now else last_seen a

/-- `True` iff `pat` occurs at the start of `s` (helper for Python's `in`). -/
def startsWithChars : List Char → List Char → Bool
  | [], _ => true
  | _ :: _, [] => false
  | p :: ps, c :: cs => p == c && startsWithChars ps cs

/-- `True` iff `pat` occurs contiguously somewhere in `s`: Python's
substring operator `pat in s`. -/
def containsChars (pat : List Char) : List Char → Bool
  | [] => pat.isEmpty
  | c :: cs => startsWithChars pat (c :: cs) || containsChars pat cs

/-- The name test of main.py line 35: `"Xiaomi Smart Band" in name`. -/
def nameMatches (name : String) : Bool :=
  containsChars "Xiaomi Smart Band".toList name.toList

/-- One iteration of the `for _, value in mdata.items()` loop body
(main.py lines 39-44): decode and forward if the value has at least 4
bytes, otherwise log the anomaly. -/
def valueEffects (http : String → Except String Nat) (addr : String)
    (value : List Byte) : List Effect :=
  if h : 4 ≤ value.length then
    let heart_rate := (value.get ⟨3, by omega⟩).val
    Effect.log (receivedLine addr heart_rate) :: send_to_osc http heart_rate
  else
    [Effect.log (tooShortLine addr value)]

/-- The whole `for` loop over `mdata.items()` (main.py lines 38-44). -/
def processValues (http : String → Except String Nat) (addr : String) :
    List (Nat × List Byte) → List Effect
  | [] => []
  | (_, value) :: rest => valueEffects http addr value ++ processValues http addr rest

/-- `handle_advertisement` (main.py lines 28-46), as a function of the
current time, the `last_seen` state and the event's fields.  Returns the
new `last_seen` and the effects produced. -/
def handle_advertisement (http : String → Except String Nat) (now : ℚ)
    (last_seen : Ledger) (device : Device)
    (manufacturer_data : List (Nat × List Byte)) : Ledger × List Effect :=
  let addr := device.address
  if arrivalSuppressed now last_seen addr then
    (last_seen, [])
  else
    let ls1 := ledgerUpdate last_seen addr now
    let name := device.name.getD ""
    if nameMatches name then
      match manufacturer_data with
      | [] => (ls1, [Effect.log (noDataLine addr)])
      | mdata => (ls1, processValues http addr mdata)
    else
      (ls1, [])

/-- The per-value decoding step of main.py lines 39-40: a value with at
least 4 bytes yields the byte at offset 3 as the sample, a shorter value
yields no sample. -/
def decodeValue (value : List Byte) : Option Nat :=
  if h : 4 ≤ value.length then some (value.get ⟨3, by omega⟩).val else none

/-- All samples decoded from the manufacturer data of one event. -/
def decodedSamples (mdata : List (Nat × List Byte)) : List Nat :=
  mdata.filterMap (fun p => decodeValue p.2)

/-- The HTTP requests among a list of effects. -/
def requestsOf (effs : List Effect) : List String :=
  effs.filterMap (fun e => match e with
    | .httpGet u => some u
    | .log _ => none)

/-- Outcome of the Bluetooth availability probe of
`check_bluetooth_availability` (main.py lines 49-62): the test scanner's
start/stop either succeeds, raises a `BleakError`, or raises some other
exception. -/
inductive BtOutcome
  | ok
  | bleakError (e : String)
  | otherError (e : String)

/-- Observable steps of `main`: console lines, the test scanner's
start/stop, the receiving scanner's (detection-callback) start/stop. -/
inductive MainStep
  | log (line : String)
  | testScanStart
  | testScanStop
  | startReceiving
  | stopReceiving
deriving DecidableEq

/-- `check_bluetooth_availability` (main.py lines 49-62): start and stop a
test scanner; on a `BleakError` or any other exception, log it and report
unavailable. -/
def check_bluetooth_availability (radio : BtOutcome) : Bool × List MainStep :=
  match radio with
  | .ok => (true, [MainStep.testScanStart, MainStep.testScanStop])
  | .bleakError e => (false, [MainStep.log s!"Bluetooth error: {e}"])
  | .otherError e => (false, [MainStep.log s!"Error checking Bluetooth availability: {e}"])

/-- The `"=" * 60` separator printed by `main`. -/
def sepLine : String := String.mk (List.replicate 60 '=')

/-- The banner `main` prints before the availability check
(main.py lines 66-77). -/
def bannerSteps : List MainStep :=
  [MainStep.log sepLine,
   MainStep.log "HeartIO Python Reporter - Xiaomi Band Broadcaster",
   MainStep.log sepLine,
   MainStep.log "This is a reporter program that forwards Xiaomi band heart rate",
   MainStep.log "broadcast data to the HeartIO main program.",
   MainStep.log "",
   MainStep.log "IMPORTANT: You must enable APPLE_WATCH: true in heartio.config.json",
   MainStep.log "This program is specifically designed for Xiaomi bands only.",
   MainStep.log sepLine,
   MainStep.log "",
   MainStep.log "Checking Bluetooth availability..."]

/-- `main` (main.py lines 65-102) up to process exit, as a function of the
radio oracle for the availability probe and of how the receiving scanner's
start ends (`Except.error` models a `BleakError` raised by
`scanner.start()`).  The value is the exit code requested via `sys.exit`
(`none` = normal return, i.e. process exit 0) together with the observable
steps.  Event handling while the scanner runs is modelled separately by
`handle_advertisement`. -/
def mainRun (radio : BtOutcome) (scanStart : Except String Unit) :
    Option Nat × List MainStep :=
  let c := check_bluetooth_availability radio
  if c.1 then
    match scanStart with
    | .ok _ =>
      (none, bannerSteps ++ c.2 ++
        [MainStep.log "Listening for Xiaomi Smart Band advertisements...",
         MainStep.startReceiving,
         MainStep.log "Scanner started. Waiting for Xiaomi band broadcasts...",
         MainStep.log "Stopping scanner...",
         MainStep.stopReceiving,
         MainStep.log "Scanner stopped."])
    | .error e =>
      (some 1, bannerSteps ++ c.2 ++
        [MainStep.log "Listening for Xiaomi Smart Band advertisements...",
         MainStep.log s!"Bluetooth scanner error: {e}",
         MainStep.log "Please check if Bluetooth is enabled and try again."])
  else
    (some 1, bannerSteps ++ c.2 ++
      [MainStep.log "Error: Bluetooth is not available or disabled. Please enable Bluetooth and try again."])

/-- A row of the `heart_rate` table read by the export script.
`created_at` is represented as unix seconds. -/
structure HRRecord where
  bpm : Int
  created_at : Int
deriving DecidableEq, Repr

/-- One object of the exported JSON array (export.py line 25). -/
structure ExportEntry where
  time : Int
  bpm : Int
deriving DecidableEq, Repr

/-- The trailing-window parameter of export.py line 8. -/
def HOURS : Int := 5

/-- `since_time` of export.py line 10: the current time minus `HOURS`. -/
def sinceTime (now : Int) : Int := now - HOURS * 3600

/-- The sqlite query of export.py lines 16-21:
`WHERE datetime(created_at) >= datetime(?)` filters the stored rows and
`ORDER BY created_at ASC` sorts them ascending by `created_at`. -/
def exportQueryRows (db : List HRRecord) (since : Int) : List HRRecord :=
  (db.filter (fun r => decide (since ≤ r.created_at))).mergeSort
    (fun a b => decide (a.created_at ≤ b.created_at))

/-- The list comprehension of export.py line 25: each row becomes
`{time: unix_seconds, bpm: integer}`. -/
def exportResults (db : List HRRecord) (since : Int) : List ExportEntry :=
  (exportQueryRows db since).map (fun r => { time := r.created_at, bpm := r.bpm })

/-- A collector that always answers 200. -/
def httpOk : String → Except String Nat := fun _ => Except.ok 200

/-- A collector that always answers 500. -/
def http500 : String → Except String Nat := fun _ => Except.ok 500

/-- A collector that is down: every request raises. -/
def httpDown : String → Except String Nat := fun _ => Except.error "connection refused"

/-- The `last_seen` dict at process start: empty. -/
def emptyLedger : Ledger := fun _ => none

/-- A sample Xiaomi band device. -/
def devXiaomi : Device := { address := "AA:BB:CC:DD:EE:FF", name := some "Xiaomi Smart Band 8" }

/-- A sample non-Xiaomi device. -/
def devOther : Device := { address := "11:22:33:44:55:66", name := some "OtherTracker" }

/-- A ledger that has already accepted devXiaomi at time 10. -/
def ledgerA : Ledger := fun a => if a = devXiaomi.address then some 10 else none

/-! ### Helper lemmas -/

/-- A suppressed event returns before touching anything: the ledger is
unchanged and no effect is produced. -/
theorem handle_of_suppressed (http : String → Except String Nat) (now : ℚ)
    (ls : Ledger) (dev : Device) (md : List (Nat × List Byte))
    (h : arrivalSuppressed now ls dev.address = true) :
    handle_advertisement http now ls dev md = (ls, []) := by
  simp [handle_advertisement, h]

/-- An accepted event always stores `now` for its source, whatever the
name, vendor data or payload lengths are. -/
theorem handle_fst_of_accepted (http : String → Except String Nat) (now : ℚ)
    (ls : Ledger) (dev : Device) (md : List (Nat × List Byte))
    (h : arrivalSuppressed now ls dev.address = false) :
    (handle_advertisement http now ls dev md).1 = ledgerUpdate ls dev.address now := by
  simp only [handle_advertisement, h, Bool.false_eq_true, if_false]
  cases hn : nameMatches (dev.name.getD "") <;> cases md <;> simp

theorem ledgerUpdate_self (ls : Ledger) (addr : String) (now : ℚ) :
    ledgerUpdate ls addr now addr = some now := by
  simp [ledgerUpdate]

theorem ledgerUpdate_other (ls : Ledger) (addr : String) (now : ℚ) (a : String)
    (h : a ≠ addr) : ledgerUpdate ls addr now a = ls a := by
  simp [ledgerUpdate, h]

theorem arrivalSuppressed_update_self (t now : ℚ) (ls : Ledger) (addr : String) :
    arrivalSuppressed t (ledgerUpdate ls addr now) addr = decide (t - now < 1) := by
  simp [arrivalSuppressed, ledgerUpdate]

theorem requestsOf_append (a b : List Effect) :
    requestsOf (a ++ b) = requestsOf a ++ requestsOf b := by
  simp [requestsOf]

theorem requestsOf_cons_log (s : String) (t : List Effect) :
    requestsOf (Effect.log s :: t) = requestsOf t := by
  simp [requestsOf]

/-- The forwarder issues exactly one request when the sample is positive
and none otherwise, whatever the collector's answer is. -/
theorem requestsOf_send (http : String → Except String Nat) (b : Nat) :
    requestsOf (send_to_osc http b) = if 0 < b then [heartUrl b] else [] := by
  unfold send_to_osc
  by_cases hb : b > 0
  · simp only [if_pos hb]
    cases http (heartUrl b) with
    | ok s => by_cases hs : s == 200 <;> simp [requestsOf, hs]
    | error e => simp [requestsOf]
  · simp [if_neg hb, requestsOf, hb]

/-- The requests issued by the decoding loop: one per decoded positive
sample, in order, with no early exit. -/
theorem requestsOf_processValues (http : String → Except String Nat)
    (addr : String) (l : List (Nat × List Byte)) :
    requestsOf (processValues http addr l)
      = ((decodedSamples l).filter (fun b => decide (0 < b))).map heartUrl := by
  induction l with
  | nil => rfl
  | cons kv rest ih =>
    obtain ⟨k, value⟩ := kv
    simp only [processValues, requestsOf_append, ih, decodedSamples, List.filterMap_cons]
    by_cases h : 4 ≤ value.length
    · simp only [valueEffects, decodeValue, dif_pos h, requestsOf_cons_log,
        requestsOf_send, List.filter_cons]
      split <;> rename_i hp <;> simp only [List.get_eq_getElem] at hp <;> simp [hp]
    · simp [valueEffects, decodeValue, dif_neg h, requestsOf]

/-! ### Claims -/

/-- C1 counterexample: the claim fails as stated.  A missing ledger entry is
read back as timestamp `0` (`last_seen.get(addr, 0)`), so an event with
current timestamp `0` from a source with no Arrival Ledger entry is
suppressed, not accepted: `handle_advertisement` returns with the ledger
unchanged and no effect, never reaching the decoding step. -/
theorem c1_counterexample :
    emptyLedger devXiaomi.address = none ∧
    arrivalSuppressed 0 emptyLedger devXiaomi.address = true ∧
    handle_advertisement httpOk 0 emptyLedger devXiaomi [(343, [1, 2, 3, 72])]
      = (emptyLedger, []) := by
  refine ⟨rfl, ?_, ?_⟩ <;>
    norm_num [arrivalSuppressed, emptyLedger, handle_advertisement]

/-- C1 (amended): for every advertisement event whose source identifier has
no entry in the Arrival Ledger, the Arrival Filter accepts the event
(it proceeds to decoding) for any current timestamp ≥ 1 second — a missing
entry is treated as last-accepted timestamp 0, so any realistic wall-clock
timestamp is accepted. -/
theorem c1_fresh_source_accepted (now : ℚ) (ls : Ledger) (addr : String)
    (hnone : ls addr = none) (h1 : 1 ≤ now) :
    arrivalSuppressed now ls addr = false := by
  simp only [arrivalSuppressed, hnone, Option.getD_none, decide_eq_false_iff_not, not_lt]
  linarith

/-- C1 witness: a fresh source at timestamp 5 is accepted. -/
theorem c1_fresh_source_accepted_witness :
    emptyLedger "AA:BB:CC:DD:EE:FF" = none ∧ (1 : ℚ) ≤ 5 ∧
    arrivalSuppressed 5 emptyLedger "AA:BB:CC:DD:EE:FF" = false :=
  ⟨rfl, by norm_num,
   c1_fresh_source_accepted 5 emptyLedger "AA:BB:CC:DD:EE:FF" rfl (by norm_num)⟩

/-- C2: a suppressed event leaves the Arrival Ledger unchanged (and produces
nothing), while an accepted event updates the entry for its source; hence
for a fixed source whose first event is accepted at `t1`, a second event at
`t2` with `t2 - t1 < 1` is suppressed and leaves the ledger unchanged, and a
third event at `t3` with `t3 - t1 ≥ 1` is accepted again. -/
theorem c2_ledger_update_only_on_accept (http : String → Except String Nat)
    (t1 t2 t3 : ℚ) (ls0 : Ledger) (dev : Device)
    (md1 md2 md3 : List (Nat × List Byte))
    (hacc : arrivalSuppressed t1 ls0 dev.address = false)
    (h12 : t2 - t1 < 1) (h13 : 1 ≤ t3 - t1) :
    (∀ (now : ℚ) (ls : Ledger) (md : List (Nat × List Byte)),
        arrivalSuppressed now ls dev.address = true →
        handle_advertisement http now ls dev md = (ls, [])) ∧
    (handle_advertisement http t1 ls0 dev md1).1 dev.address = some t1 ∧
    handle_advertisement http t2 (handle_advertisement http t1 ls0 dev md1).1 dev md2
      = ((handle_advertisement http t1 ls0 dev md1).1, []) ∧
    (handle_advertisement http t3 (handle_advertisement http t1 ls0 dev md1).1
        dev md3).1 dev.address = some t3 := by
  have hls1 : (handle_advertisement http t1 ls0 dev md1).1
      = ledgerUpdate ls0 dev.address t1 :=
    handle_fst_of_accepted _ _ _ _ _ hacc
  have hsup2 : arrivalSuppressed t2 (handle_advertisement http t1 ls0 dev md1).1
      dev.address = true := by
    rw [hls1, arrivalSuppressed_update_self]
    exact decide_eq_true h12
  have hacc3 : arrivalSuppressed t3 (handle_advertisement http t1 ls0 dev md1).1
      dev.address = false := by
    rw [hls1, arrivalSuppressed_update_self]
    exact decide_eq_false (by linarith)
  refine ⟨fun now ls md h => handle_of_suppressed http now ls dev md h, ?_, ?_, ?_⟩
  · rw [hls1]
    exact ledgerUpdate_self _ _ _
  · exact handle_of_suppressed _ _ _ _ _ hsup2
  · rw [handle_fst_of_accepted _ _ _ _ _ hacc3]
    exact ledgerUpdate_self _ _ _

/-- C2 witness: first event at 10 accepted, second at 10.5 suppressed,
third at 11 accepted again. -/
theorem c2_ledger_update_only_on_accept_witness :
    (handle_advertisement httpOk 10 emptyLedger devXiaomi []).1 devXiaomi.address
      = some 10 ∧
    handle_advertisement httpOk (21 / 2)
        (handle_advertisement httpOk 10 emptyLedger devXiaomi []).1 devXiaomi []
      = ((handle_advertisement httpOk 10 emptyLedger devXiaomi []).1, []) ∧
    (handle_advertisement httpOk 11
        (handle_advertisement httpOk 10 emptyLedger devXiaomi []).1
        devXiaomi []).1 devXiaomi.address = some 11 := by
  have h := c2_ledger_update_only_on_accept httpOk 10 (21 / 2) 11 emptyLedger
    devXiaomi [] [] [] (by norm_num [arrivalSuppressed, emptyLedger])
    (by norm_num) (by norm_num)
  exact ⟨h.2.1, h.2.2.1, h.2.2.2⟩

/-- C10: an event that passes the window check stores the current timestamp
for its source before any name, vendor-data or payload-length check — the
ledger entry is `some now` whatever the device name and manufacturer data
are (and whatever the collector does), and any later event of that source
arriving less than 1 second afterwards is suppressed. -/
theorem c10_ledger_updated_before_decode (http : String → Except String Nat)
    (now : ℚ) (ls : Ledger) (dev : Device) (md : List (Nat × List Byte))
    (hacc : arrivalSuppressed now ls dev.address = false) :
    (handle_advertisement http now ls dev md).1 dev.address = some now ∧
    (∀ (now2 : ℚ) (md2 : List (Nat × List Byte)), now2 - now < 1 →
      handle_advertisement http now2 (handle_advertisement http now ls dev md).1 dev md2
        = ((handle_advertisement http now ls dev md).1, [])) := by
  have h1 : (handle_advertisement http now ls dev md).1
      = ledgerUpdate ls dev.address now :=
    handle_fst_of_accepted _ _ _ _ _ hacc
  refine ⟨by rw [h1]; exact ledgerUpdate_self _ _ _, fun now2 md2 h2 => ?_⟩
  apply handle_of_suppressed
  rw [h1, arrivalSuppressed_update_self]
  exact decide_eq_true h2

/-- C10 witness: a non-matching device with a too-short payload and an
unreachable collector still advances the ledger and suppresses its next
event 0.5 s later. -/
theorem c10_ledger_updated_before_decode_witness :
    (handle_advertisement httpDown 10 emptyLedger devOther [(1, [9, 9])]).1
        devOther.address = some 10 ∧
    handle_advertisement httpDown (21 / 2)
        (handle_advertisement httpDown 10 emptyLedger devOther [(1, [9, 9])]).1
        devOther [(1, [9, 9])]
      = ((handle_advertisement httpDown 10 emptyLedger devOther [(1, [9, 9])]).1,
         []) := by
  have h := c10_ledger_updated_before_decode httpDown 10 emptyLedger devOther
    [(1, [9, 9])] (by norm_num [arrivalSuppressed, emptyLedger])
  exact ⟨h.1, h.2 (21 / 2) [(1, [9, 9])] (by norm_num)⟩

/-- C3: for an event that passes the filter and whose name matches, a
manufacturer-data value shorter than 4 bytes produces no sample (only the
anomaly log), and a value with at least 4 bytes produces exactly the byte
at offset 3 (a `Fin 256` value, hence an unsigned integer 0–255) as the
sample handed to the forwarder, regardless of the other bytes. -/
theorem c3_decoder_offset3 (http : String → Except String Nat) (now : ℚ)
    (ls : Ledger) (dev : Device) (k : Nat) (value : List Byte)
    (hacc : arrivalSuppressed now ls dev.address = false)
    (hname : nameMatches (dev.name.getD "") = true) :
    (value.length < 4 →
      (handle_advertisement http now ls dev [(k, value)]).2
        = [Effect.log (tooShortLine dev.address value)]) ∧
    (∀ h : 4 ≤ value.length,
      (handle_advertisement http now ls dev [(k, value)]).2
        = Effect.log (receivedLine dev.address (value.get ⟨3, by omega⟩).val)
            :: send_to_osc http (value.get ⟨3, by omega⟩).val) := by
  have hsnd : (handle_advertisement http now ls dev [(k, value)]).2
      = processValues http dev.address [(k, value)] := by
    simp [handle_advertisement, hacc, hname]
  constructor
  · intro hlen
    rw [hsnd]
    simp [processValues, valueEffects, dif_neg (by omega : ¬ 4 ≤ value.length)]
  · intro h
    rw [hsnd]
    simp [processValues, valueEffects, dif_pos h]

/-- C3 witness: a 2-byte value yields no sample; the 4-byte value
`[1, 2, 3, 72]` yields the sample 72 (byte at offset 3). -/
theorem c3_decoder_offset3_witness :
    (handle_advertisement httpOk 10 emptyLedger devXiaomi [(343, [9, 9])]).2
      = [Effect.log (tooShortLine devXiaomi.address [9, 9])] ∧
    (handle_advertisement httpOk 10 emptyLedger devXiaomi [(343, [1, 2, 3, 72])]).2
      = Effect.log (receivedLine devXiaomi.address 72) :: send_to_osc httpOk 72 := by
  have ha : arrivalSuppressed 10 emptyLedger devXiaomi.address = false := by
    norm_num [arrivalSuppressed, emptyLedger]
  refine ⟨(c3_decoder_offset3 httpOk 10 emptyLedger devXiaomi 343 [9, 9] ha
    (by decide)).1 (by decide), ?_⟩
  exact (c3_decoder_offset3 httpOk 10 emptyLedger devXiaomi 343 [1, 2, 3, 72] ha
    (by decide)).2 (by decide)

/-- C4: the Forwarder issues no request at all for a sample of value 0, and
for any sample value 1–255 it issues exactly one request, whose URL is the
fixed collector endpoint with the value as the `bpm` query parameter —
whatever the collector answers (no retry). -/
theorem c4_forwarder_contract (http : String → Except String Nat) (bpm : Nat) :
    send_to_osc http 0 = [] ∧
    (1 ≤ bpm → bpm ≤ 255 → requestsOf (send_to_osc http bpm) = [heartUrl bpm]) ∧
    heartUrl bpm = "http://127.0.0.1:2333/heart?bpm=" ++ toString bpm := by
  refine ⟨rfl, fun h1 _ => ?_, ?_⟩
  · rw [requestsOf_send, if_pos (by omega)]
  · simp only [heartUrl]
    rw [show (toString "" : String) = "" from rfl, String.append_empty]
    rfl

/-- C4 witness: sample 72 sent to a collector that answers 500 still issues
exactly the single request `http://127.0.0.1:2333/heart?bpm=72`. -/
theorem c4_forwarder_contract_witness :
    (1 : Nat) ≤ 72 ∧ (72 : Nat) ≤ 255 ∧
    requestsOf (send_to_osc http500 72) = [heartUrl 72] :=
  ⟨by decide, by decide,
   (c4_forwarder_contract http500 72).2.1 (by decide) (by decide)⟩

/-- C5: for an accepted event with matching name, every qualifying
(≥ 4 bytes) manufacturer-data value independently produces a sample that is
handed to the Forwarder: the requests issued are exactly one per decoded
positive sample, in order, with no early exit after the first. -/
theorem c5_no_early_exit (http : String → Except String Nat) (now : ℚ)
    (ls : Ledger) (dev : Device) (mdata : List (Nat × List Byte))
    (hacc : arrivalSuppressed now ls dev.address = false)
    (hname : nameMatches (dev.name.getD "") = true)
    (hmd : mdata ≠ []) :
    requestsOf (handle_advertisement http now ls dev mdata).2
      = ((decodedSamples mdata).filter (fun b => decide (0 < b))).map heartUrl := by
  have hsnd : (handle_advertisement http now ls dev mdata).2
      = processValues http dev.address mdata := by
    cases mdata with
    | nil => exact absurd rfl hmd
    | cons a l => simp [handle_advertisement, hacc, hname]
  rw [hsnd, requestsOf_processValues]

/-- C5 witness: two qualifying values in one event produce two forwarded
samples (70 then 75). -/
theorem c5_no_early_exit_witness :
    requestsOf (handle_advertisement httpOk 10 emptyLedger devXiaomi
        [(1, [0, 0, 0, 70]), (2, [0, 0, 0, 75])]).2
      = [heartUrl 70, heartUrl 75] := by
  have h := c5_no_early_exit httpOk 10 emptyLedger devXiaomi
    [(1, [0, 0, 0, 70]), (2, [0, 0, 0, 75])]
    (by norm_num [arrivalSuppressed, emptyLedger]) (by decide) (by simp)
  rw [h]
  rfl

/-- C6: a forwarding attempt never aborts the pipeline.  A non-200 status is
handled by returning normally with the failure logged; a transport error
(the oracle's `error` outcome, i.e. a raised `RequestException`) is caught
and logged, again returning normally — `send_to_osc` is a total function of
the oracle's outcome.  Moreover the ledger state handed to subsequent
events does not depend on the collector's behaviour at all, so subsequent
events keep being processed identically. -/
theorem c6_forward_failure_nonfatal (http : String → Except String Nat)
    (bpm status : Nat) (e : String) (now : ℚ) (ls : Ledger) (dev : Device)
    (md : List (Nat × List Byte)) :
    (0 < bpm → http (heartUrl bpm) = Except.ok status → status ≠ 200 →
      send_to_osc http bpm
        = [Effect.httpGet (heartUrl bpm), Effect.log (failLine bpm status)]) ∧
    (0 < bpm → http (heartUrl bpm) = Except.error e →
      send_to_osc http bpm
        = [Effect.httpGet (heartUrl bpm), Effect.log (errorLine bpm e)]) ∧
    (∀ http2 : String → Except String Nat,
      (handle_advertisement http now ls dev md).1
        = (handle_advertisement http2 now ls dev md).1) := by
  refine ⟨?_, ?_, ?_⟩
  · intro hb hok hne
    simp [send_to_osc, hb, hok, hne]
  · intro hb herr
    simp [send_to_osc, hb, herr]
  · intro http2
    cases hs : arrivalSuppressed now ls dev.address with
    | true =>
      rw [handle_of_suppressed _ _ _ _ _ hs, handle_of_suppressed _ _ _ _ _ hs]
    | false =>
      rw [handle_fst_of_accepted _ _ _ _ _ hs, handle_fst_of_accepted _ _ _ _ _ hs]

/-- C6 witness: a 500 answer and a connection failure are both logged and
both leave the forwarder returning normally with its two effects. -/
theorem c6_forward_failure_nonfatal_witness :
    send_to_osc http500 72
      = [Effect.httpGet (heartUrl 72), Effect.log (failLine 72 500)] ∧
    send_to_osc httpDown 72
      = [Effect.httpGet (heartUrl 72), Effect.log (errorLine 72 "connection refused")] :=
  ⟨(c6_forward_failure_nonfatal http500 72 500 "x" 0 emptyLedger devXiaomi []).1
      (by decide) rfl (by decide),
   (c6_forward_failure_nonfatal httpDown 72 0 "connection refused" 0 emptyLedger
      devXiaomi []).2.1 (by decide) rfl⟩

/-- C7 counterexample: the claim's "two events with distinct source
identifiers arriving at the same instant are both accepted" fails as
stated: with a ledger that accepted `devXiaomi` at time 10, simultaneous
events from `devXiaomi` and `devOther` at time 10.5 are not both accepted —
the `devXiaomi` event is suppressed (ledger unchanged, no effect). -/
theorem c7_counterexample :
    devXiaomi.address ≠ devOther.address ∧
    handle_advertisement httpOk (21 / 2) ledgerA devXiaomi [(343, [1, 2, 3, 72])]
      = (ledgerA, []) := by
  refine ⟨by decide, ?_⟩
  norm_num [handle_advertisement, arrivalSuppressed, ledgerA]

/-- C7 (amended): the Arrival Filter is keyed per source identifier:
processing an event from one source leaves the ledger entry — and hence the
accept/suppress decision at any time — of every other source unchanged; in
particular two events with distinct source identifiers arriving at the same
instant, each of which the filter would accept on the current ledger, are
both accepted. -/
theorem c7_per_source_independence (http : String → Except String Nat)
    (now : ℚ) (ls : Ledger) (devA devB : Device)
    (mdA mdB : List (Nat × List Byte))
    (hne : devB.address ≠ devA.address) :
    (∀ t : ℚ, arrivalSuppressed t (handle_advertisement http now ls devA mdA).1
        devB.address = arrivalSuppressed t ls devB.address) ∧
    (arrivalSuppressed now ls devA.address = false →
     arrivalSuppressed now ls devB.address = false →
      (handle_advertisement http now ls devA mdA).1 devA.address = some now ∧
      (handle_advertisement http now
          (handle_advertisement http now ls devA mdA).1 devB mdB).1
        devB.address = some now) := by
  have hframe : (handle_advertisement http now ls devA mdA).1 devB.address
      = ls devB.address := by
    cases hs : arrivalSuppressed now ls devA.address with
    | true => rw [handle_of_suppressed _ _ _ _ _ hs]
    | false =>
      rw [handle_fst_of_accepted _ _ _ _ _ hs]
      exact ledgerUpdate_other _ _ _ _ hne
  have hdec : ∀ t : ℚ, arrivalSuppressed t (handle_advertisement http now ls devA mdA).1
      devB.address = arrivalSuppressed t ls devB.address := fun t => by
    simp only [arrivalSuppressed, hframe]
  refine ⟨hdec, fun haccA haccB => ⟨?_, ?_⟩⟩
  · rw [handle_fst_of_accepted _ _ _ _ _ haccA]
    exact ledgerUpdate_self _ _ _
  · have hsB := (hdec now).trans haccB
    rw [handle_fst_of_accepted _ _ _ _ _ hsB]
    exact ledgerUpdate_self _ _ _

/-- C7 witness: two fresh sources at time 10, processed one after the
other, are both accepted. -/
theorem c7_per_source_independence_witness :
    (handle_advertisement httpOk 10 emptyLedger devXiaomi []).1 devXiaomi.address
      = some 10 ∧
    (handle_advertisement httpOk 10
        (handle_advertisement httpOk 10 emptyLedger devXiaomi []).1
        devOther []).1 devOther.address = some 10 := by
  have h := c7_per_source_independence httpOk 10 emptyLedger devXiaomi devOther
    [] [] (by decide)
  exact h.2 (by norm_num [arrivalSuppressed, emptyLedger])
    (by norm_num [arrivalSuppressed, emptyLedger])

/-- C8: if the Bluetooth availability check fails at startup — the probe
raises a `BleakError` or any other exception — the cause is logged, `main`
requests exit code 1, and the receiving subscription is never started (no
scan session ever reaches Active), whatever would have happened to the
receiving scanner. -/
theorem c8_radio_unavailable_exit (scanStart : Except String Unit) (e : String) :
    ((mainRun (BtOutcome.bleakError e) scanStart).1 = some 1 ∧
     MainStep.startReceiving ∉ (mainRun (BtOutcome.bleakError e) scanStart).2 ∧
     MainStep.log s!"Bluetooth error: {e}"
       ∈ (mainRun (BtOutcome.bleakError e) scanStart).2) ∧
    ((mainRun (BtOutcome.otherError e) scanStart).1 = some 1 ∧
     MainStep.startReceiving ∉ (mainRun (BtOutcome.otherError e) scanStart).2 ∧
     MainStep.log s!"Error checking Bluetooth availability: {e}"
       ∈ (mainRun (BtOutcome.otherError e) scanStart).2) := by
  refine ⟨⟨rfl, ?_, ?_⟩, ⟨rfl, ?_, ?_⟩⟩ <;>
    simp [mainRun, check_bluetooth_availability, bannerSteps]

/-- C9: the export utility's output is exactly the stored records whose
`created_at` lies in the trailing window (at or after `now` minus `HOURS`
hours), each written as a `{time, bpm}` object with `time` the record's
unix seconds, and the output is sorted ascending by `time`. -/
theorem c9_export_window_sorted (db : List HRRecord) (now : Int) :
    List.Perm (exportResults db (sinceTime now))
      ((db.filter (fun r => decide (sinceTime now ≤ r.created_at))).map
        (fun r => ExportEntry.mk r.created_at r.bpm)) ∧
    List.Pairwise (fun a b => a.time ≤ b.time) (exportResults db (sinceTime now)) := by
  constructor
  · simp only [exportResults, exportQueryRows]
    exact (List.mergeSort_perm _ _).map _
  · have hs : ((db.filter (fun r => decide (sinceTime now ≤ r.created_at))).mergeSort
        (fun a b => decide (a.created_at ≤ b.created_at))).Pairwise
        (fun a b => decide (a.created_at ≤ b.created_at) = true) := by
      apply List.sorted_mergeSort
      · intro a b c h1 h2
        simp only [decide_eq_true_eq] at h1 h2 ⊢
        omega
      · intro a b
        simp only [Bool.or_eq_true, decide_eq_true_eq]
        omega
    simp only [exportResults, exportQueryRows, List.pairwise_map]
    exact hs.imp (fun h => of_decide_eq_true h)
